import Mathlib

/-!
Verification of the d3d11-glyph crate: a shallow embedding of the
pipeline, cache-sync orchestrator and vertex conversion logic from
`src/lib.rs`, `src/pipeline.rs`, `src/cache.rs`, `src/builder.rs`,
together with theorems settling the specification claims.

Modelling conventions:
* `u32`/`usize` values are `Nat` (no arithmetic in the embedded code can
  overflow at the sizes involved; the source never wraps).
* HRESULT-style fallible D3D11 calls are `Except Int _` (`Result<T, NonZeroI32>`
  in `util.rs`; the error payload is the nonzero code).
* The D3D11 device is an oracle (`Device`) giving the outcome of each
  fallible driver call; GPU side effects are recorded as a `GpuEvent` trace.
* `f32` pixel/texture arithmetic in the vertex conversion is embedded over
  `ℚ`; the transform-equality check of `draw` is embedded over IEEE-754
  binary32 bit patterns with IEEE equality semantics (this needs no rounding).
-/

namespace D3D11Glyph

/-! ## winapi constants used by the source -/

def D3D11_FILL_SOLID : Nat := 3
def D3D11_CULL_NONE : Nat := 1
def D3D11_DEPTH_WRITE_MASK_ALL : Nat := 1
def D3D11_COMPARISON_ALWAYS : Nat := 8
def D3D11_STENCIL_OP_KEEP : Nat := 1
def FALSE : Nat := 0
def TRUE : Nat := 1

/-- `D3D11_REQ_TEXTURE2D_U_OR_V_DIMENSION`, the device maximum texture
dimension used by `process_queued` in `lib.rs`. -/
def D3D11_REQ_TEXTURE2D_U_OR_V_DIMENSION : Nat := 16384

/-! ## Fixed-function state descriptors built by `pipeline.rs::build` -/

/-- `D3D11_RASTERIZER_DESC` (the fields set at pipeline.rs:173-184).
The two float fields are embedded over `ℚ`. -/
structure RasterizerDesc where
  FillMode : Nat
  CullMode : Nat
  FrontCounterClockwise : Nat
  DepthBias : Int
  DepthBiasClamp : ℚ
  SlopeScaledDepthBias : ℚ
  DepthClipEnable : Nat
  ScissorEnable : Nat
  MultisampleEnable : Nat
  AntialiasedLineEnable : Nat
deriving DecidableEq

/-- `D3D11_DEPTH_STENCILOP_DESC` (pipeline.rs:188-193). -/
structure DepthStencilOpDesc where
  StencilFailOp : Nat
  StencilDepthFailOp : Nat
  StencilPassOp : Nat
  StencilFunc : Nat
deriving DecidableEq

/-- `D3D11_DEPTH_STENCIL_DESC` (pipeline.rs:194-203). -/
structure DepthStencilDesc where
  DepthEnable : Nat
  DepthWriteMask : Nat
  DepthFunc : Nat
  StencilEnable : Nat
  StencilReadMask : Nat
  StencilWriteMask : Nat
  FrontFace : DepthStencilOpDesc
  BackFace : DepthStencilOpDesc
deriving DecidableEq

/-- The rasterizer descriptor constructed by `build` (pipeline.rs:173-184):
solid fill, no culling, and `ScissorEnable: FALSE`. -/
def buildRasterizerDesc : RasterizerDesc where
  FillMode := D3D11_FILL_SOLID
  CullMode := D3D11_CULL_NONE
  FrontCounterClockwise := 0
  DepthBias := 0
  DepthBiasClamp := 0
  SlopeScaledDepthBias := 0
  DepthClipEnable := FALSE
  ScissorEnable := FALSE
  MultisampleEnable := 0
  AntialiasedLineEnable := 0

/-- The stencil-op descriptor used for both faces (pipeline.rs:188-193). -/
def buildStencilOpDesc : DepthStencilOpDesc where
  StencilFailOp := D3D11_STENCIL_OP_KEEP
  StencilDepthFailOp := D3D11_STENCIL_OP_KEEP
  StencilPassOp := D3D11_STENCIL_OP_KEEP
  StencilFunc := D3D11_COMPARISON_ALWAYS

/-- The depth/stencil descriptor `build` always constructs
(pipeline.rs:194-203): depth test disabled, stencil disabled. -/
def defaultDepthStencilDesc : DepthStencilDesc where
  DepthEnable := FALSE
  DepthWriteMask := D3D11_DEPTH_WRITE_MASK_ALL
  DepthFunc := D3D11_COMPARISON_ALWAYS
  StencilEnable := FALSE
  StencilReadMask := 0
  StencilWriteMask := 0
  FrontFace := buildStencilOpDesc
  BackFace := buildStencilOpDesc

/-- The depth/stencil descriptor the pipeline ends up with, as a function of
the `depth_stencil_state` argument of `build` (pipeline.rs:143-206).  In the
source that parameter has type `Option<()>` (it cannot even carry a
`D3D11_DEPTH_STENCIL_DESC`) and is shadowed at pipeline.rs:204 without ever
being read, so the descriptor is the default regardless of the argument. -/
def buildDepthStencilDesc (depthStencilState : Option Unit) : DepthStencilDesc :=
  defaultDepthStencilDesc

/-! ## The device oracle and the GPU event trace -/

/-- Outcomes of the fallible D3D11 driver calls the embedded code performs.
`createBuffer` returns the identity of the freshly created buffer (modelling
the COM pointer), keyed by the requested capacity; `mapVertexBuffer` is keyed
by the buffer identity being mapped. -/
structure Device where
  createBuffer : Nat → Except Int Nat
  mapVertexBuffer : Nat → Except Int Unit
  mapTransformBuffer : Except Int Unit
  createCache : Nat → Nat → Except Int Nat
deriving Inhabited

/-- GPU interactions performed by the embedded code, in call order. -/
inductive GpuEvent where
  | createBuffer (capacity : Nat)
  | mapVertex (id : Nat)
  | copyVertices (count : Nat)
  | unmapVertex (id : Nat)
  | mapTransform
  | writeTransform
  | unmapTransform
  | bindPipelineState
  | setScissorRects
  | drawInstanced (vertexCountPerInstance instanceCount : Nat)
  | reallocCache (width height : Nat)
  | resizeTexture (width height : Nat)
deriving DecidableEq

/-! ## Vertex buffer (`pipeline.rs::Buffer`, `upload`, `create_vertex_buffer`) -/

/-- `Buffer` (pipeline.rs:30-35) together with the GPU-visible contents that
have been copied into it (`D3D11_MAP_WRITE_DISCARD` always fully overwrites).
`id` models the COM pointer identity. -/
structure Buffer (α : Type) where
  id : Nat
  capacity : Nat
  len : Nat
  contents : List α
deriving DecidableEq

/-- `create_vertex_buffer` (pipeline.rs:116-132): a fresh buffer of the given
capacity with `len: 0`, or the driver's error code. -/
def createVertexBuffer (α : Type) (dev : Device) (capacity : Nat) :
    Except Int (Buffer α) :=
  match dev.createBuffer capacity with
  | Except.error e => Except.error e
  | Except.ok bid => Except.ok { id := bid, capacity := capacity, len := 0, contents := [] }

/-- The initial vertex buffer created by `build` (pipeline.rs:241):
`create_vertex_buffer(&device, 1024)`. -/
def buildInitialVertexBuffer (α : Type) (dev : Device) : Except Int (Buffer α) :=
  createVertexBuffer α dev 1024

structure UploadResult (α : Type) where
  result : Except Int Unit
  buffer : Buffer α
  events : List GpuEvent

/-- `Pipeline::upload` (pipeline.rs:82-114).  Empty input resets the logical
length and touches no GPU state; an input larger than the capacity replaces
the buffer with a capacity-exact new one before mapping; the map/copy/unmap
sequence sets the logical length on success. -/
def upload {α : Type} (dev : Device) (buf : Buffer α) (vertices : List α) :
    UploadResult α :=
  if vertices.isEmpty then
    { result := Except.ok (), buffer := { buf with len := 0 }, events := [] }
  else
    let step1 : Except Int (Buffer α) × List GpuEvent :=
      if buf.capacity < vertices.length then
        (createVertexBuffer α dev vertices.length, [GpuEvent.createBuffer vertices.length])
      else
        (Except.ok buf, [])
    match step1 with
    | (Except.error e, evs) => { result := Except.error e, buffer := buf, events := evs }
    | (Except.ok buf1, evs) =>
      match dev.mapVertexBuffer buf1.id with
      | Except.error e =>
        { result := Except.error e
          buffer := buf1
          events := evs ++ [GpuEvent.mapVertex buf1.id] }
      | Except.ok _ =>
        { result := Except.ok ()
          buffer := { buf1 with len := vertices.length, contents := vertices }
          events := evs ++ [GpuEvent.mapVertex buf1.id,
                            GpuEvent.copyVertices vertices.length,
                            GpuEvent.unmapVertex buf1.id] }

/-- A sequence of `upload` calls, keeping the buffer each call leaves behind
(whether the call succeeded or failed), as across frames. -/
def uploadSeq {α : Type} (dev : Device) : Buffer α → List (List α) → Buffer α
  | buf, [] => buf
  | buf, vs :: rest => uploadSeq dev (upload dev buf vs).buffer rest

/-! ## Cache-sync orchestrator (`lib.rs::process_queued`) -/

/-- `glyph_brush::BrushAction`. -/
inductive BrushAction (α : Type) where
  | draw (verts : List α)
  | redraw
deriving DecidableEq

/-- The outcome of one `glyph_brush.process_queued` call: either an action, or
`BrushError::TextureTooSmall { suggested }`. -/
inductive BrushProcessResult (α : Type) where
  | ok (action : BrushAction α)
  | textureTooSmall (suggested : Nat × Nat)
deriving DecidableEq

/-- The state `process_queued` reads and writes: the layout engine's texture
dimensions, the pipeline's cache (dimensions and identity), the vertex buffer,
and the accumulated GPU event trace. -/
structure BrushState (α : Type) where
  texDims : Nat × Nat
  cacheDims : Nat × Nat
  cacheId : Nat
  vertexBuffer : Buffer α
  events : List GpuEvent
deriving DecidableEq

/-- Result of `process_queued`.  `panicked` models the `.unwrap()` in
`increase_cache_size` (pipeline.rs:78-80) firing on a cache allocation
failure; `outOfFuel` only bounds the unbounded retry loop of the source. -/
inductive ProcessOutcome (α : Type) where
  | ok (s : BrushState α)
  | err (e : Int) (s : BrushState α)
  | panicked
  | outOfFuel
deriving DecidableEq

/-- Whether a `ProcessOutcome` is a returned error value. -/
def ProcessOutcome.isErr {α : Type} : ProcessOutcome α → Bool
  | ProcessOutcome.err _ _ => true
  | _ => false

/-- The new cache dimensions computed on `TextureTooSmall` (lib.rs:152-162):
clamp to the device maximum in both axes when some suggested axis exceeds the
maximum and some current axis is below it, else use `suggested` verbatim. -/
def newCacheDims (suggested current : Nat × Nat) : Nat × Nat :=
  if (D3D11_REQ_TEXTURE2D_U_OR_V_DIMENSION < suggested.1
      ∨ D3D11_REQ_TEXTURE2D_U_OR_V_DIMENSION < suggested.2)
     ∧ (current.1 < D3D11_REQ_TEXTURE2D_U_OR_V_DIMENSION
        ∨ current.2 < D3D11_REQ_TEXTURE2D_U_OR_V_DIMENSION) then
    (D3D11_REQ_TEXTURE2D_U_OR_V_DIMENSION, D3D11_REQ_TEXTURE2D_U_OR_V_DIMENSION)
  else
    suggested

/-- `process_queued` (lib.rs:136-184), parameterized by the layout engine as
an oracle from the current texture dimensions to the outcome of its
processing step, and by a fuel bound on the source's unbounded retry loop.
On `TextureTooSmall` the cache is reallocated at the new size
(`increase_cache_size`, which panics if `Cache::new` fails), the engine is
informed (`resize_texture`), and the step is retried; a final `Draw` action
is forwarded to `upload`, `ReDraw` returns with no upload. -/
def processQueuedLoop {α : Type} (dev : Device)
    (engine : Nat × Nat → BrushProcessResult α) :
    Nat → BrushState α → ProcessOutcome α
  | 0, _ => ProcessOutcome.outOfFuel
  | fuel + 1, s =>
    match engine s.texDims with
    | BrushProcessResult.ok (BrushAction.draw verts) =>
      let u := upload dev s.vertexBuffer verts
      let s' : BrushState α :=
        { s with vertexBuffer := u.buffer, events := s.events ++ u.events }
      match u.result with
      | Except.ok _ => ProcessOutcome.ok s'
      | Except.error e => ProcessOutcome.err e s'
    | BrushProcessResult.ok BrushAction.redraw => ProcessOutcome.ok s
    | BrushProcessResult.textureTooSmall suggested =>
      let nd := newCacheDims suggested s.texDims
      match dev.createCache nd.1 nd.2 with
      | Except.error _ => ProcessOutcome.panicked
      | Except.ok cid =>
        processQueuedLoop dev engine fuel
          { s with
            texDims := nd
            cacheDims := nd
            cacheId := cid
            events := s.events ++ [GpuEvent.reallocCache nd.1 nd.2,
                                   GpuEvent.resizeTexture nd.1 nd.2] }

/-! ## IEEE-754 binary32 equality and `pipeline.rs::draw` -/

/-- An `f32` as its 32-bit pattern. -/
abbrev F32 := Nat

/-- The bit pattern denotes an IEEE-754 NaN: exponent all ones, nonzero
mantissa. -/
def isNaNF32 (b : F32) : Bool :=
  decide ((b / 2 ^ 23) % 256 = 255 ∧ b % 2 ^ 23 ≠ 0)

/-- The bit pattern denotes a zero (`+0.0` or `-0.0`): everything but the
sign bit clear. -/
def isZeroF32 (b : F32) : Bool :=
  decide (b % 2 ^ 31 = 0)

/-- IEEE-754 `==` on binary32: NaN compares unequal to everything (itself
included), `+0.0 == -0.0`, and otherwise distinct bit patterns denote
distinct values. -/
def feq (a b : F32) : Bool :=
  !isNaNF32 a && !isNaNF32 b && (a == b || (isZeroF32 a && isZeroF32 b))

/-- Elementwise IEEE-754 equality, as Rust's `PartialEq` on `[f32; 16]`. -/
def feqList : List F32 → List F32 → Bool
  | [], [] => true
  | a :: as, b :: bs => feq a b && feqList as bs
  | _, _ => false

/-- The mutable pipeline state `draw` touches: the last-uploaded transform
(`Pipeline::transform`) and the vertex buffer whose `len` feeds the
instanced draw. -/
structure DrawPipeline (α : Type) where
  transform : List F32
  vertexBuffer : Buffer α

structure DrawResult (α : Type) where
  result : Except Int Unit
  pipeline : DrawPipeline α
  events : List GpuEvent

/-- `draw` (pipeline.rs:339-389).  The transform constant buffer is re-mapped
and rewritten only when `transform != pipeline.transform` under `f32`
equality; then the fixed-function state is bound, the scissor rect is set
only when one is supplied, and one instanced draw of 4 vertices times
`vertex_buffer.len` instances is issued.  A transform-map failure returns
early with the error. -/
def draw {α : Type} (dev : Device) (p : DrawPipeline α) (transform : List F32)
    (rect : Option (Int × Int × Int × Int)) : DrawResult α :=
  let step1 : Except Int (DrawPipeline α) × List GpuEvent :=
    if feqList transform p.transform then
      (Except.ok p, [])
    else
      match dev.mapTransformBuffer with
      | Except.error e => (Except.error e, [GpuEvent.mapTransform])
      | Except.ok _ =>
        (Except.ok { p with transform := transform },
         [GpuEvent.mapTransform, GpuEvent.writeTransform, GpuEvent.unmapTransform])
  match step1 with
  | (Except.error e, evs) =>
    { result := Except.error e, pipeline := p, events := evs }
  | (Except.ok p1, evs) =>
    { result := Except.ok ()
      pipeline := p1
      events := evs ++ GpuEvent.bindPipelineState ::
        (match rect with
         | some _ => [GpuEvent.setScissorRects]
         | none => []) ++
        [GpuEvent.drawInstanced 4 p1.vertexBuffer.len] }

/-! ## Vertex conversion (`pipeline.rs::From<GlyphVertex> for Vertex`)

The `f32` arithmetic of the clipping is embedded over `ℚ` (exact
arithmetic); the properties proved are the algebraic ones the clipping is
designed to have. -/

/-- `ab_glyph::Rect` with `min`/`max` points flattened. -/
structure RectQ where
  minX : ℚ
  minY : ℚ
  maxX : ℚ
  maxY : ℚ
deriving DecidableEq

/-- `Rect::width`. -/
def RectQ.width (r : RectQ) : ℚ := r.maxX - r.minX

/-- `Rect::height`. -/
def RectQ.height (r : RectQ) : ℚ := r.maxY - r.minY

/-- `glyph_brush::Extra`: color and z-depth. -/
structure ExtraQ where
  color : ℚ × ℚ × ℚ × ℚ
  z : ℚ
deriving DecidableEq

/-- `glyph_brush::GlyphVertex`. -/
structure GlyphVertexQ where
  tex_coords : RectQ
  pixel_coords : RectQ
  bounds : RectQ
  extra : ExtraQ
deriving DecidableEq

/-- `pipeline.rs::Vertex` (pipeline.rs:391-399). -/
structure VertexQ where
  left_top : ℚ × ℚ × ℚ
  right_bottom : ℚ × ℚ
  tex_left_top : ℚ × ℚ
  tex_right_bottom : ℚ × ℚ
  color : ℚ × ℚ × ℚ × ℚ
deriving DecidableEq

/-- The first clip of the conversion (pixel right edge, pipeline.rs:411-416):
if `pixel_coords.max.x > bounds.max.x`, move it to the bound and shrink
`tex_coords.max.x` by the new-to-old pixel width ratio. -/
def clipMaxX (tex pix bounds : RectQ) : RectQ × RectQ :=
  if bounds.maxX < pix.maxX then
    let oldWidth := pix.width
    let pix' : RectQ := { pix with maxX := bounds.maxX }
    ({ tex with maxX := tex.minX + tex.width * pix'.width / oldWidth }, pix')
  else
    (tex, pix)

/-- The second clip (pixel left edge, pipeline.rs:418-423). -/
def clipMinX (tex pix bounds : RectQ) : RectQ × RectQ :=
  if pix.minX < bounds.minX then
    let oldWidth := pix.width
    let pix' : RectQ := { pix with minX := bounds.minX }
    ({ tex with minX := tex.maxX - tex.width * pix'.width / oldWidth }, pix')
  else
    (tex, pix)

/-- The third clip (pixel bottom edge `max.y`, pipeline.rs:425-430). -/
def clipMaxY (tex pix bounds : RectQ) : RectQ × RectQ :=
  if bounds.maxY < pix.maxY then
    let oldHeight := pix.height
    let pix' : RectQ := { pix with maxY := bounds.maxY }
    ({ tex with maxY := tex.minY + tex.height * pix'.height / oldHeight }, pix')
  else
    (tex, pix)

/-- The fourth clip (pixel top edge `min.y`, pipeline.rs:432-437). -/
def clipMinY (tex pix bounds : RectQ) : RectQ × RectQ :=
  if pix.minY < bounds.minY then
    let oldHeight := pix.height
    let pix' : RectQ := { pix with minY := bounds.minY }
    ({ tex with minY := tex.maxY - tex.height * pix'.height / oldHeight }, pix')
  else
    (tex, pix)

/-- `From<GlyphVertex> for Vertex` (pipeline.rs:401-447): the four clips
applied in source order, then the field shuffle into the instance record. -/
def vertexFromGlyphVertex (gv : GlyphVertexQ) : VertexQ :=
  let s1 := clipMaxX gv.tex_coords gv.pixel_coords gv.bounds
  let s2 := clipMinX s1.1 s1.2 gv.bounds
  let s3 := clipMaxY s2.1 s2.2 gv.bounds
  let s4 := clipMinY s3.1 s3.2 gv.bounds
  let tex := s4.1
  let pix := s4.2
  { left_top := (pix.minX, pix.maxY, gv.extra.z)
    right_bottom := (pix.maxX, pix.minY)
    tex_left_top := (tex.minX, tex.maxY)
    tex_right_bottom := (tex.maxX, tex.minY)
    color := gv.extra.color }

/-! ## Concrete fixtures for witnesses and counterexamples -/

/-- A device on which every driver call succeeds. -/
def devAllOk : Device where
  createBuffer := fun _ => Except.ok 7
  mapVertexBuffer := fun _ => Except.ok ()
  mapTransformBuffer := Except.ok ()
  createCache := fun _ _ => Except.ok 3

/-- A device whose buffer creation fails with code `-1`. -/
def devCreateBufFails : Device where
  createBuffer := fun _ => Except.error (-1)
  mapVertexBuffer := fun _ => Except.ok ()
  mapTransformBuffer := Except.ok ()
  createCache := fun _ _ => Except.ok 3

/-- A device whose vertex-buffer map fails with code `-2`. -/
def devMapVertexFails : Device where
  createBuffer := fun _ => Except.ok 7
  mapVertexBuffer := fun _ => Except.error (-2)
  mapTransformBuffer := Except.ok ()
  createCache := fun _ _ => Except.ok 3

/-- A device whose cache (atlas texture) creation fails with code `-5`. -/
def devCacheFails : Device where
  createBuffer := fun _ => Except.ok 7
  mapVertexBuffer := fun _ => Except.ok ()
  mapTransformBuffer := Except.ok ()
  createCache := fun _ _ => Except.error (-5)

/-- A layout engine that always reports `TextureTooSmall { suggested: (512, 512) }`. -/
def engineSuggest512 : Nat × Nat → BrushProcessResult Nat :=
  fun _ => BrushProcessResult.textureTooSmall (512, 512)

/-- A brush state with a 256 by 256 atlas and an empty 4-slot vertex buffer. -/
def st256 : BrushState Nat where
  texDims := (256, 256)
  cacheDims := (256, 256)
  cacheId := 1
  vertexBuffer := { id := 0, capacity := 4, len := 0, contents := [] }
  events := []

/-! ## Unfolding lemmas for `upload` -/

theorem upload_nil {α : Type} (dev : Device) (buf : Buffer α) :
    upload dev buf ([] : List α)
      = { result := Except.ok (), buffer := { buf with len := 0 }, events := [] } :=
  rfl

theorem isEmpty_false_of_ne_nil {α : Type} {vs : List α} (hne : vs ≠ []) :
    vs.isEmpty = false := by
  cases vs with
  | nil => exact absurd rfl hne
  | cons a l => rfl

theorem upload_no_realloc_map_err {α : Type} (dev : Device) (buf : Buffer α)
    (vs : List α) (e : Int) (hne : vs ≠ []) (hle : vs.length ≤ buf.capacity)
    (hmap : dev.mapVertexBuffer buf.id = Except.error e) :
    upload dev buf vs
      = { result := Except.error e, buffer := buf
          events := [GpuEvent.mapVertex buf.id] } := by
  simp only [upload, isEmpty_false_of_ne_nil hne, Bool.false_eq_true, if_false,
    if_neg (Nat.not_lt.mpr hle), hmap]
  rfl

theorem upload_no_realloc_map_ok {α : Type} (dev : Device) (buf : Buffer α)
    (vs : List α) (hne : vs ≠ []) (hle : vs.length ≤ buf.capacity)
    (hmap : dev.mapVertexBuffer buf.id = Except.ok ()) :
    upload dev buf vs
      = { result := Except.ok ()
          buffer := { buf with len := vs.length, contents := vs }
          events := [GpuEvent.mapVertex buf.id, GpuEvent.copyVertices vs.length,
                     GpuEvent.unmapVertex buf.id] } := by
  simp only [upload, isEmpty_false_of_ne_nil hne, Bool.false_eq_true, if_false,
    if_neg (Nat.not_lt.mpr hle), hmap]
  rfl

theorem upload_realloc_create_err {α : Type} (dev : Device) (buf : Buffer α)
    (vs : List α) (e : Int) (hne : vs ≠ []) (hlt : buf.capacity < vs.length)
    (hcb : dev.createBuffer vs.length = Except.error e) :
    upload dev buf vs
      = { result := Except.error e, buffer := buf
          events := [GpuEvent.createBuffer vs.length] } := by
  simp only [upload, isEmpty_false_of_ne_nil hne, Bool.false_eq_true, if_false,
    if_pos hlt, createVertexBuffer, hcb]

theorem upload_realloc_map_err {α : Type} (dev : Device) (buf : Buffer α)
    (vs : List α) (bid : Nat) (e : Int) (hne : vs ≠ [])
    (hlt : buf.capacity < vs.length)
    (hcb : dev.createBuffer vs.length = Except.ok bid)
    (hmap : dev.mapVertexBuffer bid = Except.error e) :
    upload dev buf vs
      = { result := Except.error e
          buffer := { id := bid, capacity := vs.length, len := 0, contents := [] }
          events := [GpuEvent.createBuffer vs.length, GpuEvent.mapVertex bid] } := by
  simp only [upload, isEmpty_false_of_ne_nil hne, Bool.false_eq_true, if_false,
    if_pos hlt, createVertexBuffer, hcb, hmap]
  rfl

theorem upload_realloc_map_ok {α : Type} (dev : Device) (buf : Buffer α)
    (vs : List α) (bid : Nat) (hne : vs ≠ [])
    (hlt : buf.capacity < vs.length)
    (hcb : dev.createBuffer vs.length = Except.ok bid)
    (hmap : dev.mapVertexBuffer bid = Except.ok ()) :
    upload dev buf vs
      = { result := Except.ok ()
          buffer := { id := bid, capacity := vs.length, len := vs.length, contents := vs }
          events := [GpuEvent.createBuffer vs.length, GpuEvent.mapVertex bid,
                     GpuEvent.copyVertices vs.length, GpuEvent.unmapVertex bid] } := by
  simp only [upload, isEmpty_false_of_ne_nil hne, Bool.false_eq_true, if_false,
    if_pos hlt, createVertexBuffer, hcb, hmap]
  rfl

/-- Capacity is monotone across a single `upload` call, success or failure. -/
theorem upload_capacity_le {α : Type} (dev : Device) (buf : Buffer α)
    (vs : List α) : buf.capacity ≤ (upload dev buf vs).buffer.capacity := by
  rcases eq_or_ne vs [] with hvs | hne
  · subst hvs; exact le_refl _
  · rcases Nat.lt_or_ge buf.capacity vs.length with hlt | hge
    · cases hcb : dev.createBuffer vs.length with
      | error e => rw [upload_realloc_create_err dev buf vs e hne hlt hcb]
      | ok bid =>
        cases hmap : dev.mapVertexBuffer bid with
        | error e =>
          rw [upload_realloc_map_err dev buf vs bid e hne hlt hcb hmap]
          exact le_of_lt hlt
        | ok u =>
          rw [upload_realloc_map_ok dev buf vs bid hne hlt hcb hmap]
          exact le_of_lt hlt
    · cases hmap : dev.mapVertexBuffer buf.id with
      | error e => rw [upload_no_realloc_map_err dev buf vs e hne hge hmap]
      | ok u => rw [upload_no_realloc_map_ok dev buf vs hne hge hmap]

/-- A successful `upload` leaves `len = vs.length ≤ capacity`. -/
theorem upload_ok_len {α : Type} (dev : Device) (buf : Buffer α) (vs : List α)
    (hok : (upload dev buf vs).result = Except.ok ()) :
    (upload dev buf vs).buffer.len = vs.length
    ∧ vs.length ≤ (upload dev buf vs).buffer.capacity := by
  rcases eq_or_ne vs [] with hvs | hne
  · subst hvs; exact ⟨rfl, Nat.zero_le _⟩
  · rcases Nat.lt_or_ge buf.capacity vs.length with hlt | hge
    · cases hcb : dev.createBuffer vs.length with
      | error e => rw [upload_realloc_create_err dev buf vs e hne hlt hcb] at hok ⊢; cases hok
      | ok bid =>
        cases hmap : dev.mapVertexBuffer bid with
        | error e =>
          rw [upload_realloc_map_err dev buf vs bid e hne hlt hcb hmap] at hok ⊢; cases hok
        | ok u =>
          rw [upload_realloc_map_ok dev buf vs bid hne hlt hcb hmap]
          exact ⟨rfl, le_refl _⟩
    · cases hmap : dev.mapVertexBuffer buf.id with
      | error e => rw [upload_no_realloc_map_err dev buf vs e hne hge hmap] at hok ⊢; cases hok
      | ok u =>
        rw [upload_no_realloc_map_ok dev buf vs hne hge hmap]
        exact ⟨rfl, hge⟩

/-! ## Claim theorems -/

/-- C7: the pipeline's rasterizer state is built as no-cull solid fill, but
with `ScissorEnable: FALSE` — scissor support is NOT enabled, although the
crate exposes `draw_queued_with_transform_and_scissoring`, which sets scissor
rects that this rasterizer state makes the device ignore. -/
theorem rasterizer_scissor_disabled :
    buildRasterizerDesc.FillMode = D3D11_FILL_SOLID
    ∧ buildRasterizerDesc.CullMode = D3D11_CULL_NONE
    ∧ buildRasterizerDesc.ScissorEnable = FALSE
    ∧ buildRasterizerDesc.ScissorEnable ≠ TRUE := by
  refine ⟨rfl, rfl, rfl, ?_⟩
  intro h
  simp [buildRasterizerDesc, FALSE, TRUE] at h

/-- C8: the depth/stencil descriptor the pipeline is built with is the
default disabled depth test regardless of the `depth_stencil_state` argument:
`build`'s parameter has type `Option<()>` (it cannot carry a caller
configuration) and is shadowed without being read, so a supplied
configuration never reaches the pipeline. -/
theorem depth_stencil_config_ignored :
    ∀ depthStencilState : Option Unit,
      buildDepthStencilDesc depthStencilState = defaultDepthStencilDesc
      ∧ (buildDepthStencilDesc depthStencilState).DepthEnable = FALSE
      ∧ (buildDepthStencilDesc (some ())) = buildDepthStencilDesc none := by
  intro d
  exact ⟨rfl, rfl, rfl⟩

/-- C1: on a `TextureTooSmall(suggested)` outcome, `process_queued` computes
the new dimensions as the device maximum in both axes exactly when some
suggested axis exceeds the device maximum and some current axis is below it,
and as `suggested` verbatim otherwise; it reallocates the cache at the new
size and informs the layout engine (in that order) before retrying the
processing step. -/
theorem process_queued_resize_clamp_policy {α : Type} (dev : Device)
    (engine : Nat × Nat → BrushProcessResult α) (fuel : Nat) (s : BrushState α)
    (suggested : Nat × Nat) (cid : Nat)
    (heng : engine s.texDims = BrushProcessResult.textureTooSmall suggested)
    (hcache : dev.createCache (newCacheDims suggested s.texDims).1
        (newCacheDims suggested s.texDims).2 = Except.ok cid) :
    ((D3D11_REQ_TEXTURE2D_U_OR_V_DIMENSION < suggested.1
        ∨ D3D11_REQ_TEXTURE2D_U_OR_V_DIMENSION < suggested.2)
       ∧ (s.texDims.1 < D3D11_REQ_TEXTURE2D_U_OR_V_DIMENSION
          ∨ s.texDims.2 < D3D11_REQ_TEXTURE2D_U_OR_V_DIMENSION) →
      newCacheDims suggested s.texDims
        = (D3D11_REQ_TEXTURE2D_U_OR_V_DIMENSION, D3D11_REQ_TEXTURE2D_U_OR_V_DIMENSION))
    ∧ (¬ ((D3D11_REQ_TEXTURE2D_U_OR_V_DIMENSION < suggested.1
           ∨ D3D11_REQ_TEXTURE2D_U_OR_V_DIMENSION < suggested.2)
          ∧ (s.texDims.1 < D3D11_REQ_TEXTURE2D_U_OR_V_DIMENSION
             ∨ s.texDims.2 < D3D11_REQ_TEXTURE2D_U_OR_V_DIMENSION)) →
      newCacheDims suggested s.texDims = suggested)
    ∧ processQueuedLoop dev engine (fuel + 1) s
        = processQueuedLoop dev engine fuel
            { s with
              texDims := newCacheDims suggested s.texDims
              cacheDims := newCacheDims suggested s.texDims
              cacheId := cid
              events := s.events
                ++ [GpuEvent.reallocCache (newCacheDims suggested s.texDims).1
                      (newCacheDims suggested s.texDims).2,
                    GpuEvent.resizeTexture (newCacheDims suggested s.texDims).1
                      (newCacheDims suggested s.texDims).2] } := by
  refine ⟨?_, ?_, ?_⟩
  · intro h
    simp only [newCacheDims, if_pos h]
  · intro h
    simp only [newCacheDims, if_neg h]
  · simp only [processQueuedLoop, heng, hcache]

/-- C1 witness: growing a 256 by 256 atlas to the suggested 512 by 512
(no clamping applies) on a device whose allocation succeeds. -/
theorem process_queued_resize_clamp_policy_witness :
    engineSuggest512 st256.texDims = BrushProcessResult.textureTooSmall (512, 512)
    ∧ processQueuedLoop devAllOk engineSuggest512 (1 + 1) st256
        = processQueuedLoop devAllOk engineSuggest512 1
            { st256 with
              texDims := newCacheDims (512, 512) st256.texDims
              cacheDims := newCacheDims (512, 512) st256.texDims
              cacheId := 3
              events := st256.events
                ++ [GpuEvent.reallocCache (newCacheDims (512, 512) st256.texDims).1
                      (newCacheDims (512, 512) st256.texDims).2,
                    GpuEvent.resizeTexture (newCacheDims (512, 512) st256.texDims).1
                      (newCacheDims (512, 512) st256.texDims).2] } :=
  ⟨rfl,
   (process_queued_resize_clamp_policy devAllOk engineSuggest512 1 st256 (512, 512) 3
      rfl rfl).2.2⟩

/-- C2 counterexample: with a layout engine requesting growth and a device
whose atlas allocation fails, `process_queued` panics (the `.unwrap()` in
`increase_cache_size`) instead of returning the allocation failure as an
error value. -/
theorem cache_alloc_failure_not_an_error_value :
    processQueuedLoop devCacheFails engineSuggest512 1 st256 = ProcessOutcome.panicked
    ∧ (processQueuedLoop devCacheFails engineSuggest512 1 st256).isErr = false := by
  exact ⟨rfl, rfl⟩

/-- C2 amended: if reallocating the atlas at the new size fails during the
resize-retry loop, `process_queued` panics (aborts via `Result::unwrap`);
the allocation failure is not returned to the caller as an error value. -/
theorem cache_alloc_failure_panics {α : Type} (dev : Device)
    (engine : Nat × Nat → BrushProcessResult α) (fuel : Nat) (s : BrushState α)
    (suggested : Nat × Nat) (e : Int)
    (heng : engine s.texDims = BrushProcessResult.textureTooSmall suggested)
    (hcache : dev.createCache (newCacheDims suggested s.texDims).1
        (newCacheDims suggested s.texDims).2 = Except.error e) :
    processQueuedLoop dev engine (fuel + 1) s = ProcessOutcome.panicked := by
  simp only [processQueuedLoop, heng, hcache]

/-- C2 amended witness: the panic at the concrete failing device. -/
theorem cache_alloc_failure_panics_witness :
    processQueuedLoop devCacheFails engineSuggest512 (0 + 1) st256
      = ProcessOutcome.panicked :=
  cache_alloc_failure_panics devCacheFails engineSuggest512 0 st256 (512, 512) (-5)
    rfl rfl

/-- An empty vertex buffer with zero capacity. -/
def bufCap0 : Buffer Nat where
  id := 0
  capacity := 0
  len := 0
  contents := []

/-- C4 counterexample: with a device whose `CreateBuffer` fails (code `-1`)
but whose map operation always succeeds, uploading one record into a
zero-capacity buffer fails with the creation error and performs no map at
all — the call does not fail "exactly when the buffer map operation fails". -/
theorem upload_fails_without_map_failure :
    (upload devCreateBufFails bufCap0 [5]).result = Except.error (-1)
    ∧ (upload devCreateBufFails bufCap0 [5]).events = [GpuEvent.createBuffer 1]
    ∧ devCreateBufFails.mapVertexBuffer 0 = Except.ok () :=
  ⟨rfl, rfl, rfl⟩

/-- C4 amended: `upload` on an empty input resets the length with no GPU
interaction; an input within capacity reuses the buffer (no reallocation)
and fails exactly when the map fails; an input exceeding capacity
reallocates with capacity exactly the record count and fails exactly when
that reallocation or the subsequent map fails; on success all records are
copied in and the length is the record count. -/
theorem upload_characterization {α : Type} (dev : Device) (buf : Buffer α)
    (vs : List α) :
    (vs = [] →
      upload dev buf vs
        = { result := Except.ok (), buffer := { buf with len := 0 }, events := [] })
    ∧ (vs ≠ [] → vs.length ≤ buf.capacity →
      GpuEvent.createBuffer vs.length ∉ (upload dev buf vs).events
      ∧ (upload dev buf vs).buffer.id = buf.id
      ∧ (upload dev buf vs).buffer.capacity = buf.capacity
      ∧ ((upload dev buf vs).result = Except.ok ()
          ↔ dev.mapVertexBuffer buf.id = Except.ok ())
      ∧ ((upload dev buf vs).result = Except.ok () →
          (upload dev buf vs).buffer.len = vs.length
          ∧ (upload dev buf vs).buffer.contents = vs))
    ∧ (vs ≠ [] → buf.capacity < vs.length →
      ((upload dev buf vs).result = Except.ok ()
        ↔ ∃ bid, dev.createBuffer vs.length = Except.ok bid
            ∧ dev.mapVertexBuffer bid = Except.ok ())
      ∧ (∀ bid, dev.createBuffer vs.length = Except.ok bid →
          (upload dev buf vs).buffer.capacity = vs.length
          ∧ (upload dev buf vs).buffer.id = bid)
      ∧ ((upload dev buf vs).result = Except.ok () →
          (upload dev buf vs).buffer.len = vs.length
          ∧ (upload dev buf vs).buffer.contents = vs)) := by
  refine ⟨?_, ?_, ?_⟩
  · intro h; subst h; rfl
  · intro hne hle
    cases hmap : dev.mapVertexBuffer buf.id with
    | error e =>
      rw [upload_no_realloc_map_err dev buf vs e hne hle hmap]
      refine ⟨by simp, rfl, rfl, ?_, ?_⟩
      · simp [hmap]
      · intro h; cases h
    | ok u =>
      cases u
      rw [upload_no_realloc_map_ok dev buf vs hne hle hmap]
      refine ⟨by simp, rfl, rfl, by simp [hmap], fun _ => ⟨rfl, rfl⟩⟩
  · intro hne hlt
    cases hcb : dev.createBuffer vs.length with
    | error e =>
      rw [upload_realloc_create_err dev buf vs e hne hlt hcb]
      refine ⟨?_, ?_, ?_⟩
      · constructor
        · intro h; cases h
        · rintro ⟨bid, hbid, -⟩; cases hbid
      · intro bid hbid; cases hbid
      · intro h; cases h
    | ok bid =>
      cases hmap : dev.mapVertexBuffer bid with
      | error e =>
        rw [upload_realloc_map_err dev buf vs bid e hne hlt hcb hmap]
        refine ⟨?_, ?_, ?_⟩
        · constructor
          · intro h; cases h
          · rintro ⟨bid', hbid', hmap'⟩
            injection hbid' with h'
            subst h'
            rw [hmap] at hmap'
            cases hmap'
        · intro bid' hbid'
          injection hbid' with h'
          subst h'
          exact ⟨rfl, rfl⟩
        · intro h; cases h
      | ok u =>
        cases u
        rw [upload_realloc_map_ok dev buf vs bid hne hlt hcb hmap]
        refine ⟨?_, ?_, fun _ => ⟨rfl, rfl⟩⟩
        · constructor
          · intro _; exact ⟨bid, rfl, hmap⟩
          · intro _; rfl
        · intro bid' hbid'
          injection hbid' with h'
          subst h'
          exact ⟨rfl, rfl⟩

/-- C4 amended witness: growing a zero-capacity buffer by one record on an
all-succeeding device yields a capacity-exact buffer with the device's
fresh buffer identity. -/
theorem upload_characterization_witness :
    (upload devAllOk bufCap0 [5]).buffer.capacity = 1
    ∧ (upload devAllOk bufCap0 [5]).buffer.id = 7 :=
  ((upload_characterization devAllOk bufCap0 [5]).2.2 (by decide) (by decide)).2.1
    7 rfl

/-- Capacity is monotone across any sequence of uploads. -/
theorem uploadSeq_capacity_le {α : Type} (dev : Device) (batches : List (List α)) :
    ∀ buf : Buffer α, buf.capacity ≤ (uploadSeq dev buf batches).capacity := by
  induction batches with
  | nil => intro buf; exact le_refl _
  | cons vs rest ih =>
    intro buf
    exact le_trans (upload_capacity_le dev buf vs) (ih (upload dev buf vs).buffer)

/-- C5: vertex-buffer capacity never decreases across any sequence of
`upload` calls, and after a successful upload of `vsN` records, a later
upload of fewer records reuses the existing buffer — no reallocation, same
identity, same capacity — and on success sets the logical length to the
new record count. -/
theorem vertex_buffer_capacity_never_shrinks {α : Type} (dev : Device)
    (buf : Buffer α) (batches : List (List α)) (vsN vsM : List α)
    (hN : (upload dev buf vsN).result = Except.ok ())
    (hM : vsM.length < vsN.length) :
    buf.capacity ≤ (uploadSeq dev buf batches).capacity
    ∧ GpuEvent.createBuffer vsM.length
        ∉ (upload dev (upload dev buf vsN).buffer vsM).events
    ∧ (upload dev (upload dev buf vsN).buffer vsM).buffer.id
        = (upload dev buf vsN).buffer.id
    ∧ (upload dev (upload dev buf vsN).buffer vsM).buffer.capacity
        = (upload dev buf vsN).buffer.capacity
    ∧ ((upload dev (upload dev buf vsN).buffer vsM).result = Except.ok () →
        (upload dev (upload dev buf vsN).buffer vsM).buffer.len = vsM.length) := by
  refine ⟨uploadSeq_capacity_le dev batches buf, ?_⟩
  have hcap : vsN.length ≤ (upload dev buf vsN).buffer.capacity :=
    (upload_ok_len dev buf vsN hN).2
  have hle : vsM.length ≤ (upload dev buf vsN).buffer.capacity :=
    le_trans (le_of_lt hM) hcap
  rcases eq_or_ne vsM [] with hvs | hne
  · subst hvs
    rw [upload_nil]
    exact ⟨by simp, rfl, rfl, fun _ => rfl⟩
  · cases hmap : dev.mapVertexBuffer (upload dev buf vsN).buffer.id with
    | error e =>
      rw [upload_no_realloc_map_err dev _ vsM e hne hle hmap]
      refine ⟨by simp, rfl, rfl, ?_⟩
      intro h; cases h
    | ok u =>
      cases u
      rw [upload_no_realloc_map_ok dev _ vsM hne hle hmap]
      exact ⟨by simp, rfl, rfl, fun _ => rfl⟩

/-- C5 witness: upload two records into a zero-capacity buffer (growing it
to capacity 2), then one record: capacity is unchanged by the second call. -/
theorem vertex_buffer_capacity_never_shrinks_witness :
    (upload devAllOk (upload devAllOk bufCap0 [1, 2]).buffer [9]).buffer.capacity
      = (upload devAllOk bufCap0 [1, 2]).buffer.capacity :=
  (vertex_buffer_capacity_never_shrinks devAllOk bufCap0 [] [1, 2] [9]
    rfl (by decide)).2.2.2.1

/-- C10: `upload` is not atomic on error.  If a reallocation was needed and
the subsequent map fails, the error is returned with the old buffer already
replaced (new identity, capacity-exact) and logical length `0` rather than
the pre-call length; if no reallocation was needed, a map failure leaves the
previous buffer and logical length intact. -/
theorem upload_error_atomicity {α : Type} (dev : Device) (buf : Buffer α)
    (vs : List α) (bid : Nat) (e : Int) (hne : vs ≠ []) :
    (buf.capacity < vs.length →
      dev.createBuffer vs.length = Except.ok bid →
      dev.mapVertexBuffer bid = Except.error e →
      (upload dev buf vs).result = Except.error e
      ∧ (upload dev buf vs).buffer
          = { id := bid, capacity := vs.length, len := 0, contents := [] })
    ∧ (vs.length ≤ buf.capacity →
      dev.mapVertexBuffer buf.id = Except.error e →
      (upload dev buf vs).result = Except.error e
      ∧ (upload dev buf vs).buffer = buf) := by
  constructor
  · intro hlt hcb hmap
    rw [upload_realloc_map_err dev buf vs bid e hne hlt hcb hmap]
    exact ⟨rfl, rfl⟩
  · intro hle hmap
    rw [upload_no_realloc_map_err dev buf vs e hne hle hmap]
    exact ⟨rfl, rfl⟩

/-- C10 witness: on a device whose map fails with `-2`, growing a
zero-capacity buffer by one record returns the map error with the buffer
already replaced (identity 7, capacity 1, length 0). -/
theorem upload_error_atomicity_witness :
    (upload devMapVertexFails bufCap0 [5]).result = Except.error (-2)
    ∧ (upload devMapVertexFails bufCap0 [5]).buffer
        = { id := 7, capacity := 1, len := 0, contents := [] } :=
  (upload_error_atomicity devMapVertexFails bufCap0 [5] 7 (-2) (by decide)).1
    (by decide) rfl rfl

/-- A populated vertex buffer: 5 records in an 8-slot buffer. -/
def bufDraw : Buffer Nat where
  id := 2
  capacity := 8
  len := 5
  contents := [1, 2, 3, 4, 5]

/-- A pipeline whose stored transform contains a negative-zero `f32`
(bit pattern `2^31`) in its first slot and positive zeros elsewhere. -/
def pNegZero : DrawPipeline Nat where
  transform := 2 ^ 31 :: List.replicate 15 0
  vertexBuffer := bufDraw

/-- The all-positive-zero bit-pattern transform. -/
def tPlusZero : List F32 := List.replicate 16 0

/-- A transform whose first slot is the (nonzero, non-NaN) bit pattern `3`. -/
def tDenormal : List F32 := 3 :: List.replicate 15 0

/-- C9: the vertex-buffer invariant `len ≤ capacity` holds after
construction (capacity 1024, length 0) and is preserved by every `upload`
call whether it succeeds or fails; a successful `draw` issues its single
instanced draw with instance count equal to the buffer's logical length
(so under the invariant the instance count never exceeds the capacity). -/
theorem vertex_buffer_len_le_capacity_invariant {α : Type} (dev : Device)
    (buf : Buffer α) (vs : List α) (p : DrawPipeline α) (t : List F32)
    (r : Option (Int × Int × Int × Int)) (hinv : buf.len ≤ buf.capacity) :
    (∀ nb : Buffer α, buildInitialVertexBuffer α dev = Except.ok nb →
        nb.len = 0 ∧ nb.capacity = 1024 ∧ nb.len ≤ nb.capacity)
    ∧ (upload dev buf vs).buffer.len ≤ (upload dev buf vs).buffer.capacity
    ∧ ((draw dev p t r).result = Except.ok () →
        ∃ pre, (draw dev p t r).events
            = pre ++ [GpuEvent.drawInstanced 4 p.vertexBuffer.len]) := by
  refine ⟨?_, ?_, ?_⟩
  · intro nb hnb
    unfold buildInitialVertexBuffer createVertexBuffer at hnb
    cases hcb : dev.createBuffer 1024 with
    | error e => rw [hcb] at hnb; cases hnb
    | ok bid =>
      rw [hcb] at hnb
      injection hnb with h'
      subst h'
      exact ⟨rfl, rfl, Nat.zero_le _⟩
  · rcases eq_or_ne vs [] with hvs | hne
    · subst hvs; rw [upload_nil]; exact Nat.zero_le _
    · rcases Nat.lt_or_ge buf.capacity vs.length with hlt | hge
      · cases hcb : dev.createBuffer vs.length with
        | error e =>
          rw [upload_realloc_create_err dev buf vs e hne hlt hcb]; exact hinv
        | ok bid =>
          cases hmap : dev.mapVertexBuffer bid with
          | error e =>
            rw [upload_realloc_map_err dev buf vs bid e hne hlt hcb hmap]
            exact Nat.zero_le _
          | ok u =>
            rw [upload_realloc_map_ok dev buf vs bid hne hlt hcb hmap]
      · cases hmap : dev.mapVertexBuffer buf.id with
        | error e =>
          rw [upload_no_realloc_map_err dev buf vs e hne hge hmap]; exact hinv
        | ok u =>
          rw [upload_no_realloc_map_ok dev buf vs hne hge hmap]; exact hge
  · unfold draw
    cases hf : feqList t p.transform with
    | true =>
      rw [if_pos rfl]
      intro _
      cases r with
      | none =>
        exact ⟨[GpuEvent.bindPipelineState], rfl⟩
      | some rc =>
        exact ⟨[GpuEvent.bindPipelineState, GpuEvent.setScissorRects], rfl⟩
    | false =>
      rw [if_neg (by simp)]
      cases hm : dev.mapTransformBuffer with
      | error e => intro h; cases h
      | ok u =>
        intro _
        cases r with
        | none =>
          exact ⟨[GpuEvent.mapTransform, GpuEvent.writeTransform,
                  GpuEvent.unmapTransform, GpuEvent.bindPipelineState], rfl⟩
        | some rc =>
          exact ⟨[GpuEvent.mapTransform, GpuEvent.writeTransform,
                  GpuEvent.unmapTransform, GpuEvent.bindPipelineState,
                  GpuEvent.setScissorRects], rfl⟩

/-- C9 witness: the invariant is preserved when growing the zero-capacity
buffer by three records on the all-succeeding device. -/
theorem vertex_buffer_len_le_capacity_invariant_witness :
    (upload devAllOk bufCap0 [1, 2, 3]).buffer.len
      ≤ (upload devAllOk bufCap0 [1, 2, 3]).buffer.capacity :=
  (vertex_buffer_len_le_capacity_invariant devAllOk bufCap0 [1, 2, 3]
    pNegZero tPlusZero none (by decide)).2.1

/-- C6 counterexample: a transform that differs bit-for-bit from the
last-uploaded one (negative zero versus positive zero in the first slot)
does NOT trigger a remap: the draw call skips the constant-buffer map and
write entirely, because the code compares with `f32` IEEE-754 equality
(`transform != pipeline.transform`), under which `-0.0 == +0.0`. -/
theorem draw_skips_remap_on_bitwise_different_transform :
    tPlusZero ≠ pNegZero.transform
    ∧ GpuEvent.mapTransform ∉ (draw devAllOk pNegZero tPlusZero none).events
    ∧ GpuEvent.writeTransform ∉ (draw devAllOk pNegZero tPlusZero none).events
    ∧ (draw devAllOk pNegZero tPlusZero none).result = Except.ok ()
    ∧ GpuEvent.drawInstanced 4 5 ∈ (draw devAllOk pNegZero tPlusZero none).events := by
  refine ⟨by decide, by decide, by decide, rfl, by decide⟩

/-- C6 amended: `draw` remaps and rewrites the transform constant buffer if
and only if the transform differs from the last-uploaded one under IEEE-754
`f32` equality (`+0.0 == -0.0`; a NaN is unequal even to itself), not
bit-for-bit equality; when equal, the map is skipped and the buffer left
unchanged while the instanced draw is still issued; when unequal, the map
and write happen before the draw (and a map failure returns the error with
no draw issued). -/
theorem draw_remap_iff_ieee_unequal {α : Type} (dev : Device)
    (p : DrawPipeline α) (t : List F32) (r : Option (Int × Int × Int × Int)) :
    (feqList t p.transform = true →
      (draw dev p t r).result = Except.ok ()
      ∧ (draw dev p t r).pipeline.transform = p.transform
      ∧ GpuEvent.mapTransform ∉ (draw dev p t r).events
      ∧ GpuEvent.writeTransform ∉ (draw dev p t r).events
      ∧ ∃ pre, (draw dev p t r).events
          = pre ++ [GpuEvent.drawInstanced 4 p.vertexBuffer.len])
    ∧ (feqList t p.transform = false →
      (dev.mapTransformBuffer = Except.ok () →
        (draw dev p t r).result = Except.ok ()
        ∧ (draw dev p t r).pipeline.transform = t
        ∧ GpuEvent.mapTransform ∈ (draw dev p t r).events
        ∧ GpuEvent.writeTransform ∈ (draw dev p t r).events
        ∧ ∃ pre, (draw dev p t r).events
            = pre ++ [GpuEvent.drawInstanced 4 p.vertexBuffer.len])
      ∧ (∀ e, dev.mapTransformBuffer = Except.error e →
        (draw dev p t r).result = Except.error e
        ∧ (draw dev p t r).pipeline.transform = p.transform
        ∧ (draw dev p t r).events = [GpuEvent.mapTransform])) := by
  constructor
  · intro hf
    unfold draw
    rw [if_pos hf]
    cases r with
    | none =>
      exact ⟨rfl, rfl, by simp, by simp,
        ⟨[GpuEvent.bindPipelineState], rfl⟩⟩
    | some rc =>
      exact ⟨rfl, rfl, by simp, by simp,
        ⟨[GpuEvent.bindPipelineState, GpuEvent.setScissorRects], rfl⟩⟩
  · intro hf
    unfold draw
    rw [if_neg (by simp [hf])]
    constructor
    · intro hm
      rw [hm]
      cases r with
      | none =>
        refine ⟨rfl, rfl, by simp, by simp, ?_⟩
        exact ⟨[GpuEvent.mapTransform, GpuEvent.writeTransform,
                GpuEvent.unmapTransform, GpuEvent.bindPipelineState], rfl⟩
      | some rc =>
        refine ⟨rfl, rfl, by simp, by simp, ?_⟩
        exact ⟨[GpuEvent.mapTransform, GpuEvent.writeTransform,
                GpuEvent.unmapTransform, GpuEvent.bindPipelineState,
                GpuEvent.setScissorRects], rfl⟩
    · intro e hm
      rw [hm]
      exact ⟨rfl, rfl, rfl⟩

/-- C6 amended witness: a transform that is IEEE-754-unequal to the stored
one (first slot bit pattern `3` versus `0`) does get uploaded: the stored
transform becomes the new one. -/
theorem draw_remap_iff_ieee_unequal_witness :
    (draw devAllOk pNegZero tDenormal none).pipeline.transform = tDenormal :=
  (((draw_remap_iff_ieee_unequal devAllOk pNegZero tDenormal none).2
    (by decide)).1 rfl).2.1

/-! ## Clipping lemmas for the vertex conversion -/

/-- Horizontal clipping pass (`clipMaxX` then `clipMinX`, the source order):
the pixel rectangle's x-extent is clamped to the bounds; the y-extents of
both rectangles are untouched; each texture x-side satisfies a closed-form
proportional formula mentioning only its own bound side; and the
texel-to-pixel width ratio is preserved. -/
theorem clipX_spec (tex pix bounds : RectQ)
    (hW : pix.minX < pix.maxX) (hB : pix.minX < bounds.maxX) :
    (clipMinX (clipMaxX tex pix bounds).1 (clipMaxX tex pix bounds).2 bounds).2.maxX
      = min pix.maxX bounds.maxX
    ∧ (clipMinX (clipMaxX tex pix bounds).1 (clipMaxX tex pix bounds).2 bounds).2.minX
      = max pix.minX bounds.minX
    ∧ (clipMinX (clipMaxX tex pix bounds).1 (clipMaxX tex pix bounds).2 bounds).2.minY
      = pix.minY
    ∧ (clipMinX (clipMaxX tex pix bounds).1 (clipMaxX tex pix bounds).2 bounds).2.maxY
      = pix.maxY
    ∧ (clipMinX (clipMaxX tex pix bounds).1 (clipMaxX tex pix bounds).2 bounds).1.maxX
      = (if bounds.maxX < pix.maxX
         then tex.minX + tex.width * (bounds.maxX - pix.minX) / pix.width
         else tex.maxX)
    ∧ (clipMinX (clipMaxX tex pix bounds).1 (clipMaxX tex pix bounds).2 bounds).1.minX
      = (if pix.minX < bounds.minX
         then tex.minX + tex.width * (bounds.minX - pix.minX) / pix.width
         else tex.minX)
    ∧ (clipMinX (clipMaxX tex pix bounds).1 (clipMaxX tex pix bounds).2 bounds).1.minY
      = tex.minY
    ∧ (clipMinX (clipMaxX tex pix bounds).1 (clipMaxX tex pix bounds).2 bounds).1.maxY
      = tex.maxY
    ∧ ((clipMinX (clipMaxX tex pix bounds).1 (clipMaxX tex pix bounds).2 bounds).1.maxX
        - (clipMinX (clipMaxX tex pix bounds).1 (clipMaxX tex pix bounds).2 bounds).1.minX)
        * pix.width
      = tex.width
        * ((clipMinX (clipMaxX tex pix bounds).1 (clipMaxX tex pix bounds).2 bounds).2.maxX
           - (clipMinX (clipMaxX tex pix bounds).1 (clipMaxX tex pix bounds).2 bounds).2.minX) := by
  have hW0 : pix.maxX - pix.minX ≠ 0 := sub_ne_zero.mpr (ne_of_gt hW)
  have hB0 : bounds.maxX - pix.minX ≠ 0 := sub_ne_zero.mpr (ne_of_gt hB)
  by_cases h1 : bounds.maxX < pix.maxX <;> by_cases h2 : pix.minX < bounds.minX <;>
    refine ⟨?_, ?_, ?_, ?_, ?_, ?_, ?_, ?_, ?_⟩ <;>
    simp only [clipMaxX, clipMinX, RectQ.width, h1, h2, if_true, if_false] <;>
    first
    | rfl
    | exact (min_eq_right (le_of_lt h1)).symm
    | exact (min_eq_left (not_lt.mp h1)).symm
    | exact (max_eq_right (le_of_lt h2)).symm
    | exact (max_eq_left (not_lt.mp h2)).symm
    | (field_simp [hW0, hB0]; try ring)

/-- Vertical clipping pass (`clipMaxY` then `clipMinY`), the mirror of
`clipX_spec`: y-extent clamped, x-extents untouched, per-side proportional
texture formulas, and texel-to-pixel height ratio preserved. -/
theorem clipY_spec (tex pix bounds : RectQ)
    (hH : pix.minY < pix.maxY) (hB : pix.minY < bounds.maxY) :
    (clipMinY (clipMaxY tex pix bounds).1 (clipMaxY tex pix bounds).2 bounds).2.maxY
      = min pix.maxY bounds.maxY
    ∧ (clipMinY (clipMaxY tex pix bounds).1 (clipMaxY tex pix bounds).2 bounds).2.minY
      = max pix.minY bounds.minY
    ∧ (clipMinY (clipMaxY tex pix bounds).1 (clipMaxY tex pix bounds).2 bounds).2.minX
      = pix.minX
    ∧ (clipMinY (clipMaxY tex pix bounds).1 (clipMaxY tex pix bounds).2 bounds).2.maxX
      = pix.maxX
    ∧ (clipMinY (clipMaxY tex pix bounds).1 (clipMaxY tex pix bounds).2 bounds).1.maxY
      = (if bounds.maxY < pix.maxY
         then tex.minY + tex.height * (bounds.maxY - pix.minY) / pix.height
         else tex.maxY)
    ∧ (clipMinY (clipMaxY tex pix bounds).1 (clipMaxY tex pix bounds).2 bounds).1.minY
      = (if pix.minY < bounds.minY
         then tex.minY + tex.height * (bounds.minY - pix.minY) / pix.height
         else tex.minY)
    ∧ (clipMinY (clipMaxY tex pix bounds).1 (clipMaxY tex pix bounds).2 bounds).1.minX
      = tex.minX
    ∧ (clipMinY (clipMaxY tex pix bounds).1 (clipMaxY tex pix bounds).2 bounds).1.maxX
      = tex.maxX
    ∧ ((clipMinY (clipMaxY tex pix bounds).1 (clipMaxY tex pix bounds).2 bounds).1.maxY
        - (clipMinY (clipMaxY tex pix bounds).1 (clipMaxY tex pix bounds).2 bounds).1.minY)
        * pix.height
      = tex.height
        * ((clipMinY (clipMaxY tex pix bounds).1 (clipMaxY tex pix bounds).2 bounds).2.maxY
           - (clipMinY (clipMaxY tex pix bounds).1 (clipMaxY tex pix bounds).2 bounds).2.minY) := by
  have hH0 : pix.maxY - pix.minY ≠ 0 := sub_ne_zero.mpr (ne_of_gt hH)
  have hB0 : bounds.maxY - pix.minY ≠ 0 := sub_ne_zero.mpr (ne_of_gt hB)
  by_cases h1 : bounds.maxY < pix.maxY <;> by_cases h2 : pix.minY < bounds.minY <;>
    refine ⟨?_, ?_, ?_, ?_, ?_, ?_, ?_, ?_, ?_⟩ <;>
    simp only [clipMaxY, clipMinY, RectQ.height, h1, h2, if_true, if_false] <;>
    first
    | rfl
    | exact (min_eq_right (le_of_lt h1)).symm
    | exact (min_eq_left (not_lt.mp h1)).symm
    | exact (max_eq_right (le_of_lt h2)).symm
    | exact (max_eq_left (not_lt.mp h2)).symm
    | (field_simp [hH0, hB0]; try ring)

/-- C3: each side of the pixel rectangle exceeding the bounds is clipped
exactly to the bound; each corresponding texture side satisfies a
closed-form proportional formula that mentions only its own side's bound
(so clipping on opposite sides is independent: the right-side texture
coordinate does not depend on the left bound, and symmetrically, in both
axes); and the texel-to-pixel aspect is preserved: the final texture
width (height) to pixel width (height) ratio equals the original one,
stated cross-multiplied. -/
theorem vertex_clip_exact_proportional_independent (gv : GlyphVertexQ)
    (hx : gv.pixel_coords.minX < gv.pixel_coords.maxX)
    (hbx : gv.pixel_coords.minX < gv.bounds.maxX)
    (hy : gv.pixel_coords.minY < gv.pixel_coords.maxY)
    (hby : gv.pixel_coords.minY < gv.bounds.maxY) :
    (vertexFromGlyphVertex gv).right_bottom.1
      = min gv.pixel_coords.maxX gv.bounds.maxX
    ∧ (vertexFromGlyphVertex gv).left_top.1
      = max gv.pixel_coords.minX gv.bounds.minX
    ∧ (vertexFromGlyphVertex gv).left_top.2.1
      = min gv.pixel_coords.maxY gv.bounds.maxY
    ∧ (vertexFromGlyphVertex gv).right_bottom.2
      = max gv.pixel_coords.minY gv.bounds.minY
    ∧ (vertexFromGlyphVertex gv).tex_right_bottom.1
      = (if gv.bounds.maxX < gv.pixel_coords.maxX
         then gv.tex_coords.minX + gv.tex_coords.width
             * (gv.bounds.maxX - gv.pixel_coords.minX) / gv.pixel_coords.width
         else gv.tex_coords.maxX)
    ∧ (vertexFromGlyphVertex gv).tex_left_top.1
      = (if gv.pixel_coords.minX < gv.bounds.minX
         then gv.tex_coords.minX + gv.tex_coords.width
             * (gv.bounds.minX - gv.pixel_coords.minX) / gv.pixel_coords.width
         else gv.tex_coords.minX)
    ∧ (vertexFromGlyphVertex gv).tex_left_top.2
      = (if gv.bounds.maxY < gv.pixel_coords.maxY
         then gv.tex_coords.minY + gv.tex_coords.height
             * (gv.bounds.maxY - gv.pixel_coords.minY) / gv.pixel_coords.height
         else gv.tex_coords.maxY)
    ∧ (vertexFromGlyphVertex gv).tex_right_bottom.2
      = (if gv.pixel_coords.minY < gv.bounds.minY
         then gv.tex_coords.minY + gv.tex_coords.height
             * (gv.bounds.minY - gv.pixel_coords.minY) / gv.pixel_coords.height
         else gv.tex_coords.minY)
    ∧ ((vertexFromGlyphVertex gv).tex_right_bottom.1
        - (vertexFromGlyphVertex gv).tex_left_top.1) * gv.pixel_coords.width
      = gv.tex_coords.width
        * ((vertexFromGlyphVertex gv).right_bottom.1
           - (vertexFromGlyphVertex gv).left_top.1)
    ∧ ((vertexFromGlyphVertex gv).tex_left_top.2
        - (vertexFromGlyphVertex gv).tex_right_bottom.2) * gv.pixel_coords.height
      = gv.tex_coords.height
        * ((vertexFromGlyphVertex gv).left_top.2.1
           - (vertexFromGlyphVertex gv).right_bottom.2) := by
  obtain ⟨px1, px2, px3, px4, tx1, tx2, tx3, tx4, ax⟩ :=
    clipX_spec gv.tex_coords gv.pixel_coords gv.bounds hx hbx
  obtain ⟨py1, py2, py3, py4, ty1, ty2, ty3, ty4, ay⟩ :=
    clipY_spec
      (clipMinX (clipMaxX gv.tex_coords gv.pixel_coords gv.bounds).1
        (clipMaxX gv.tex_coords gv.pixel_coords gv.bounds).2 gv.bounds).1
      (clipMinX (clipMaxX gv.tex_coords gv.pixel_coords gv.bounds).1
        (clipMaxX gv.tex_coords gv.pixel_coords gv.bounds).2 gv.bounds).2
      gv.bounds
      (by rw [px3, px4]; exact hy)
      (by rw [px3]; exact hby)
  have hTH : (clipMinX (clipMaxX gv.tex_coords gv.pixel_coords gv.bounds).1
      (clipMaxX gv.tex_coords gv.pixel_coords gv.bounds).2 gv.bounds).1.height
      = gv.tex_coords.height := by
    simp only [RectQ.height]
    rw [tx3, tx4]
  have hPH : (clipMinX (clipMaxX gv.tex_coords gv.pixel_coords gv.bounds).1
      (clipMaxX gv.tex_coords gv.pixel_coords gv.bounds).2 gv.bounds).2.height
      = gv.pixel_coords.height := by
    simp only [RectQ.height]
    rw [px3, px4]
  simp only [vertexFromGlyphVertex]
  refine ⟨?_, ?_, ?_, ?_, ?_, ?_, ?_, ?_, ?_, ?_⟩
  · rw [py4, px1]
  · rw [py3, px2]
  · rw [py1, px4]
  · rw [py2, px3]
  · rw [ty4, tx1]
  · rw [ty3, tx2]
  · rw [ty1, px3, px4, tx3, tx4, hTH, hPH]
  · rw [ty2, px3, tx3, hTH, hPH]
  · rw [ty3, ty4, py3, py4]
    exact ax
  · rw [← hPH, ← hTH]
    exact ay

/-- A concrete glyph vertex: texture rect `[0,1]²`, pixel rect
`[0,10]²`, bounds `[1,8]²` — all four sides get clipped. -/
def gvW : GlyphVertexQ where
  tex_coords := { minX := 0, minY := 0, maxX := 1, maxY := 1 }
  pixel_coords := { minX := 0, minY := 0, maxX := 10, maxY := 10 }
  bounds := { minX := 1, minY := 1, maxX := 8, maxY := 8 }
  extra := { color := (0, 0, 0, 1), z := 0 }

/-- C3 witness: on `gvW`, the right pixel edge is clipped to `8` and the
left to `1`, with texture coordinates `4/5` and `1/10`. -/
theorem vertex_clip_exact_proportional_independent_witness :
    (vertexFromGlyphVertex gvW).right_bottom.1 = 8
    ∧ (vertexFromGlyphVertex gvW).left_top.1 = 1
    ∧ (vertexFromGlyphVertex gvW).tex_right_bottom.1 = 4 / 5
    ∧ (vertexFromGlyphVertex gvW).tex_left_top.1 = 1 / 10 := by
  obtain ⟨h1, h2, h3, h4, h5, h6, h7, h8, h9, h10⟩ :=
    vertex_clip_exact_proportional_independent gvW (by norm_num [gvW])
      (by norm_num [gvW]) (by norm_num [gvW]) (by norm_num [gvW])
  refine ⟨?_, ?_, ?_, ?_⟩
  · rw [h1]; norm_num [gvW]
  · rw [h2]; norm_num [gvW]
  · rw [h5]; norm_num [gvW, RectQ.width]
  · rw [h6]; norm_num [gvW, RectQ.width]

end D3D11Glyph
